import Mathlib

/-!
Shallow embedding of `ClimaPorClick.py` (QGIS weather-by-click plugin).

Python floats are modelled as rationals (`ℚ`); `round(x, 1)` is modelled as
round-half-up to one decimal (the spec allows any single rounding policy and no
property under test hits a tie).  Optional JSON fields are `Option` values;
Python exceptions are explicit `Except` errors.  The HTTP layer (`requests`
session with a urllib3 `Retry`) is modelled as a deterministic state machine
over an environment that yields the result of each successive HTTP attempt.
-/

set_option autoImplicit false

namespace ClimaPorClick

/-! ### Constants (ClimaPorClick.py lines 26-41) -/

def API_TIMEOUT : ℕ := 10

def API_BASE_URL : String := "https://api.openweathermap.org/data/2.5/weather"

/-- `MS_TO_KNOTS = 1.94384` (line 28). -/
def MS_TO_KNOTS : ℚ := 194384 / 100000

/-- `MS_TO_KMH = 3.6` (line 29). -/
def MS_TO_KMH : ℚ := 36 / 10

/-- The `ICON_EMOJI` dict (lines 35-41), as an association list. -/
def ICON_EMOJI : List (String × String) :=
  [("01d", "☀️"), ("01n", "🌙"), ("02d", "⛅"), ("02n", "☁️"),
   ("03d", "☁️"), ("03n", "☁️"), ("04d", "☁️"), ("04n", "☁️"),
   ("09d", "🌧️"), ("09n", "🌧️"), ("10d", "🌦️"), ("10n", "🌧️"),
   ("11d", "⛈️"), ("11n", "⛈️"), ("13d", "❄️"), ("13n", "❄️"),
   ("50d", "🌫️"), ("50n", "🌫️")]

/-- `ICON_EMOJI.get(key, "")` — Python `dict.get` with default `""` (line 116). -/
def iconFor (key : String) : String :=
  (ICON_EMOJI.lookup key).getD ""

/-! ### Python value helpers -/

/-- Python `round(x, 1)`: round to one decimal place (modelled half-up on `ℚ`). -/
def round1 (q : ℚ) : ℚ := ((round (10 * q) : ℤ) : ℚ) / 10

/-- Python `x or 0.0` on an optional float: `None` and `0.0` are falsy. -/
def pyOrZero : Option ℚ → ℚ
  | none => 0
  | some q => if q = 0 then 0 else q

/-- Python `str.capitalize()`: first character upper-cased, the rest lower-cased
(modelled on ASCII letters; every description under test is ASCII-initial). -/
def pyCapitalize (s : String) : String :=
  match s.data with
  | [] => ""
  | c :: cs => String.mk (c.toUpper :: cs.map Char.toLower)

/-- Python exceptions that the embedded code can raise or catch.  Every
constructor models a subclass of Python `Exception`. -/
inductive PyExn
  | timeout
  | connectionError
  | valueError
  | indexError
  | retryError
deriving DecidableEq

/-! ### Data model (`WeatherData`, lines 73-129) -/

/-- One entry of the payload's `weather` array (`description`, `icon`). -/
structure WeatherItem where
  description : Option String
  icon : Option String
deriving DecidableEq

/-- The OpenWeatherMap JSON payload fields read by `from_api_response`
(lines 99-111): `main.temp`, `main.feels_like`, `main.humidity`,
`wind.speed`, `wind.deg`, `wind.gust`, `weather`, `name`.  An absent
object (`main` / `wind`) is the same as all of its fields being absent. -/
structure ApiPayload where
  name : Option String
  weather : Option (List WeatherItem)
  temp : Option ℚ
  feels_like : Option ℚ
  humidity : Option ℚ
  wind_speed : Option ℚ
  wind_deg : Option ℚ
  wind_gust : Option ℚ
deriving DecidableEq

/-- The `WeatherData` dataclass (lines 73-86), field for field. -/
structure WeatherData where
  ciudad : String
  descripcion_clima : String
  icono_clima : String
  temperatura_celsius : ℚ
  sensacion_termica_celsius : Option ℚ
  humedad_porcentaje : Option ℚ
  velocidad_viento_kmh : ℚ
  velocidad_viento_nudos : ℚ
  direccion_viento_grados : ℚ
  rafaga_viento_kmh : ℚ
  rafaga_viento_nudos : ℚ
deriving DecidableEq

/-- `WeatherData.from_api_response` (lines 88-125).  `data.get("weather", [{}])[0]`
raises `IndexError` when the payload carries an explicitly empty `weather`
array; all other field accesses have defaults. -/
def from_api_response (data : ApiPayload) : Except PyExn WeatherData :=
  match data.weather.getD [⟨none, none⟩] with
  | [] => Except.error PyExn.indexError
  | w :: _ =>
    let vel_ms := pyOrZero data.wind_speed
    let vel_kt := round1 (vel_ms * MS_TO_KNOTS)
    let vel_kmh := round1 (vel_ms * MS_TO_KMH)
    let gust_ms := pyOrZero data.wind_gust
    let gust_kmh := round1 (gust_ms * MS_TO_KMH)
    let gust_kt := round1 (gust_ms * MS_TO_KNOTS)
    Except.ok
      { ciudad := data.name.getD "Desconocida"
        descripcion_clima := w.description.getD ""
        icono_clima := iconFor (w.icon.getD "")
        temperatura_celsius := data.temp.getD 0
        sensacion_termica_celsius := data.feels_like
        humedad_porcentaje := data.humidity
        velocidad_viento_kmh := vel_kmh
        velocidad_viento_nudos := vel_kt
        direccion_viento_grados := data.wind_deg.getD 0
        rafaga_viento_kmh := gust_kmh
        rafaga_viento_nudos := gust_kt }

/-! ### HTTP session with retries (`_create_session`, lines 293-306) -/

/-- The urllib3 `Retry` configuration built in `_create_session`. -/
structure RetryConfig where
  total : ℕ
  backoff_factor : ℚ
  status_forcelist : List ℕ

/-- `Retry(total=3, backoff_factor=0.3, status_forcelist=[500, 502, 503, 504])`. -/
def create_session_retry : RetryConfig :=
  { total := 3, backoff_factor := 3 / 10, status_forcelist := [500, 502, 503, 504] }

/-- A response body: JSON that `r.json()` parses into a payload, or text that
makes `r.json()` raise `ValueError`. -/
inductive Body
  | badJson
  | json (data : ApiPayload)
deriving DecidableEq

/-- What one low-level HTTP attempt produces: a response with a status code and
a body, a timeout, or a connection failure. -/
inductive AttemptResult
  | status (code : ℕ) (body : Body)
  | timeout
  | connError
deriving DecidableEq

/-- What `session.get` as a whole produces once the `Retry` policy has run:
a response handed back to the caller, or the exception surfaced by `requests`
when the retry budget is exhausted (`RetryError` for a forcelist status,
`Timeout` / `ConnectionError` otherwise). -/
inductive SessionOutcome
  | ok (code : ℕ) (body : Body)
  | exhaustedStatus
  | exhaustedTimeout
  | exhaustedConn

/-- The urllib3 retry loop: attempt `k` is performed, and a forcelist status,
timeout or connection error consumes one retry from the budget (`Retry.increment`);
when the budget is already empty such a failure raises (`is_exhausted`).  Any
other status is returned to the caller.  Returns the number of HTTP attempts
performed together with the outcome. -/
def retryLoop (cfg : RetryConfig) (env : ℕ → AttemptResult) : ℕ → ℕ → ℕ × SessionOutcome
  | 0, k =>
    match env k with
    | AttemptResult.status c b =>
      if cfg.status_forcelist.contains c then (k + 1, SessionOutcome.exhaustedStatus)
      else (k + 1, SessionOutcome.ok c b)
    | AttemptResult.timeout => (k + 1, SessionOutcome.exhaustedTimeout)
    | AttemptResult.connError => (k + 1, SessionOutcome.exhaustedConn)
  | r + 1, k =>
    match env k with
    | AttemptResult.status c b =>
      if cfg.status_forcelist.contains c then retryLoop cfg env r (k + 1)
      else (k + 1, SessionOutcome.ok c b)
    | AttemptResult.timeout => retryLoop cfg env r (k + 1)
    | AttemptResult.connError => retryLoop cfg env r (k + 1)

/-- `session.get(url, timeout=API_TIMEOUT)` under the session's retry adapter:
up to `total` retries after the initial attempt. -/
def sessionGet (env : ℕ → AttemptResult) : ℕ × SessionOutcome :=
  retryLoop create_session_retry env create_session_retry.total 0

/-- The world outside `WeatherAPIClient`: whether the `requests` module imported
(else `self.session is None`), and the result of each successive HTTP attempt. -/
structure FetchEnv where
  requestsAvailable : Bool
  attempts : ℕ → AttemptResult

/-! ### `validate_coordinates` and `fetch_weather` (lines 308-412) -/

/-- `WeatherAPIClient.validate_coordinates` (lines 308-334). -/
def validate_coordinates (lat lon : ℚ) : Bool :=
  if ¬ (-90 ≤ lat ∧ lat ≤ 90) then false
  else if ¬ (-180 ≤ lon ∧ lon ≤ 180) then false
  else true

/-- The distinct results of `fetch_weather`, one per return path of the source
(each path logs a distinct message, so they are observable). -/
inductive FetchOutcome
  | success (w : WeatherData)
  | invalidCoords
  | missingApiKey
  | noSession
  | invalidJson
  | httpError (status : ℕ)
  | timeoutError
  | connectionError
  | unexpectedError
deriving DecidableEq

/-- `WeatherAPIClient.fetch_weather` (lines 336-412), paired with the number of
HTTP requests issued.  Mirrors the source order: coordinate check, api-key
check, session check, `session.get`, `r.json()`, status check,
`from_api_response`; each `except` clause returns `None` (a failure outcome). -/
def fetch_weather (env : FetchEnv) (api_key : String) (lat lon : ℚ) :
    FetchOutcome × ℕ :=
  if ¬ validate_coordinates lat lon then (FetchOutcome.invalidCoords, 0)
  else if api_key = "" then (FetchOutcome.missingApiKey, 0)
  else if ¬ env.requestsAvailable then (FetchOutcome.noSession, 0)
  else
    match sessionGet env.attempts with
    | (n, SessionOutcome.ok code body) =>
      match body with
      | Body.badJson => (FetchOutcome.invalidJson, n)
      | Body.json data =>
        if code ≠ 200 then (FetchOutcome.httpError code, n)
        else
          match from_api_response data with
          | Except.error _ => (FetchOutcome.unexpectedError, n)
          | Except.ok w => (FetchOutcome.success w, n)
    | (n, SessionOutcome.exhaustedStatus) => (FetchOutcome.unexpectedError, n)
    | (n, SessionOutcome.exhaustedTimeout) => (FetchOutcome.timeoutError, n)
    | (n, SessionOutcome.exhaustedConn) => (FetchOutcome.connectionError, n)

/-- The `Optional[WeatherData]` value `fetch_weather` returns to its caller. -/
def outcomeToOption : FetchOutcome → Option WeatherData
  | FetchOutcome.success w => some w
  | _ => none

/-! ### Exception-level model of `fetch_weather` (for the no-escape property).
The body of the `try:` block (lines 368-390) is modelled with explicit `Except`
errors, and the `except` clauses (lines 392-412) as a handler chain, so that
"no exception escapes" is a theorem about the handler coverage rather than a
by-construction fact. -/

/-- `r.json()` (line 373): raises `ValueError` on an unparsable body. -/
def r_json : Body → Except PyExn ApiPayload
  | Body.badJson => Except.error PyExn.valueError
  | Body.json data => Except.ok data

/-- The `try:` block of `fetch_weather` (lines 368-390): `session.get`, the
inner `try`/`except ValueError` around `r.json()`, the status check, and
`from_api_response`.  Errors are the exceptions this block can raise. -/
def fetch_try (env : FetchEnv) : Except PyExn (Option WeatherData) :=
  match sessionGet env.attempts with
  | (_, SessionOutcome.exhaustedStatus) => Except.error PyExn.retryError
  | (_, SessionOutcome.exhaustedTimeout) => Except.error PyExn.timeout
  | (_, SessionOutcome.exhaustedConn) => Except.error PyExn.connectionError
  | (_, SessionOutcome.ok code body) =>
    match r_json body with
    | Except.error e =>
      if e = PyExn.valueError then Except.ok none else Except.error e
    | Except.ok data =>
      if code ≠ 200 then Except.ok none
      else
        match from_api_response data with
        | Except.error e => Except.error e
        | Except.ok w => Except.ok (some w)

/-- `isinstance(e, requests.exceptions.Timeout)`. -/
def isTimeoutExn : PyExn → Bool
  | PyExn.timeout => true
  | _ => false

/-- `isinstance(e, requests.exceptions.ConnectionError)`. -/
def isConnectionErrorExn : PyExn → Bool
  | PyExn.connectionError => true
  | _ => false

/-- `isinstance(e, Exception)` — every modelled exception derives from
Python `Exception`. -/
def isExceptionExn : PyExn → Bool
  | _ => true

/-- The `except` chain of `fetch_weather` (lines 392-412): each handler that
matches returns `None`; `none` means the exception is unhandled. -/
def fetch_handlers (e : PyExn) : Option (Option WeatherData) :=
  if isTimeoutExn e then some none
  else if isConnectionErrorExn e then some none
  else if isExceptionExn e then some none
  else none

/-- `fetch_weather` at the exception level: the guard clauses, then the `try:`
block with the `except` chain applied; an `Except.error` result would be an
exception escaping to the host. -/
def fetch_weather_guarded (env : FetchEnv) (api_key : String) (lat lon : ℚ) :
    Except PyExn (Option WeatherData) :=
  if ¬ validate_coordinates lat lon then Except.ok none
  else if api_key = "" then Except.ok none
  else if ¬ env.requestsAvailable then Except.ok none
  else
    match fetch_try env with
    | Except.ok v => Except.ok v
    | Except.error e =>
      match fetch_handlers e with
      | some v => Except.ok v
      | none => Except.error e

/-! ### Helpers referenced by the GUI code but absent from the sources -/

/-- Modelled from the spec: `direccion_viento_desc` is called by `show_legend`
(line 587) and `canvasReleaseEvent` (line 760) but its definition is not among
the provided sources — only these call sites are.  Per the spec the GUI layer
only formats text, so it is modelled as a total pure function mapping a wind
bearing to a compass label. -/
def direccion_viento_desc (deg : ℚ) : String :=
  if deg < 45 then "N"
  else if deg < 135 then "E"
  else if deg < 225 then "S"
  else if deg < 315 then "O"
  else "N"

/-- Modelled from the spec: `color_for_temp` is called by `show_legend`
(line 602) but its definition is not among the provided sources.  It is
modelled as a total pure function mapping an optional temperature to a
(background, text-color) pair. -/
def color_for_temp (t : Option ℚ) : String × String :=
  match t with
  | none => ("rgba(200,200,200,220)", "black")
  | some q =>
    if q ≤ 0 then ("rgba(120,170,255,220)", "black")
    else if q < 25 then ("rgba(180,220,180,220)", "black")
    else ("rgba(255,160,110,220)", "black")

/-- Modelled from the spec: Python `str(float)` formatting used inside
f-strings, abstracted as an arbitrary total rendering of the numeric value;
this concrete instance is used for closed witnesses. -/
def pyFloatStr (q : ℚ) : String :=
  toString q.num ++ "/" ++ toString q.den

/-! ### Rendering (`show_legend` lines 541-609, `canvasReleaseEvent` lines 695-776).
The functions take the float formatter `fmt` and (where the source calls it)
the wind-direction helper `dirDesc` as explicit parameters, so every theorem
about them holds for the actual Python formatting. -/

/-- `sens_txt` of `show_legend` (lines 583-585): built only when
`sensacion_termica_celsius is not None`. -/
def legend_sens_txt (s : Option ℚ) (fmt : ℚ → String) : String :=
  match s with
  | some q => " (sens. " ++ fmt q ++ "°C)"
  | none => ""

/-- The gust suffix of `show_legend` (lines 597-598): appended only when
`rafaga_viento_nudos > 0`. -/
def legend_rafaga_txt (w : WeatherData) (fmt : ℚ → String) : String :=
  if w.rafaga_viento_nudos > 0 then " (ráfaga " ++ fmt w.rafaga_viento_nudos ++ " kt)"
  else ""

/-- The `texto` built by `show_legend` for a weather record (lines 589-598). -/
def legend_texto (w : WeatherData) (fmt : ℚ → String) (dirDesc : ℚ → String) : String :=
  "<b>" ++ w.icono_clima ++ " " ++ w.ciudad ++ "</b> — " ++
  fmt w.temperatura_celsius ++ "°C" ++
  legend_sens_txt w.sensacion_termica_celsius fmt ++ " — " ++
  pyCapitalize w.descripcion_clima ++ " — Viento: " ++
  fmt w.velocidad_viento_nudos ++ " kt / " ++
  fmt w.velocidad_viento_kmh ++ " km/h " ++
  dirDesc w.direccion_viento_grados ++
  legend_rafaga_txt w fmt

/-- Everything of `legend_texto` before the capitalized description. -/
def legend_before_desc (w : WeatherData) (fmt : ℚ → String) : String :=
  "<b>" ++ w.icono_clima ++ " " ++ w.ciudad ++ "</b> — " ++
  fmt w.temperatura_celsius ++ "°C" ++
  legend_sens_txt w.sensacion_termica_celsius fmt ++ " — "

/-- Everything of `legend_texto` after the capitalized description. -/
def legend_after_desc (w : WeatherData) (fmt : ℚ → String) (dirDesc : ℚ → String) : String :=
  " — Viento: " ++ fmt w.velocidad_viento_nudos ++ " kt / " ++
  fmt w.velocidad_viento_kmh ++ " km/h " ++
  dirDesc w.direccion_viento_grados ++
  legend_rafaga_txt w fmt

/-- `show_legend` (lines 541-609): computes the legend text and, via
`color_for_temp`, the label colors.  `Except` marks the points where a raised
exception would escape; with the helpers defined this body has none left. -/
def show_legend_run (weather : Option WeatherData) (fmt : ℚ → String) :
    Except PyExn (String × String × String) :=
  match weather with
  | some w =>
    let texto := legend_texto w fmt direccion_viento_desc
    let colors := color_for_temp (some w.temperatura_celsius)
    Except.ok (texto, colors.1, colors.2)
  | none =>
    let colors := color_for_temp none
    Except.ok ("<i>Haz clic en el mapa para consultar el clima.</i>", colors.1, colors.2)

/-- A persisted attribute value: QGIS fields here are strings or doubles. -/
inductive Attr
  | s (v : String)
  | n (v : ℚ)
deriving DecidableEq

/-- The attribute row written by `WeatherDataStore.save_weather`
(lines 266-281): note `sensacion_termica_celsius or 0.0` and
`humedad_porcentaje or 0.0`. -/
def save_attributes (timestamp : String) (lat lon : ℚ) (w : WeatherData) : List Attr :=
  [Attr.s timestamp, Attr.n lat, Attr.n lon,
   Attr.s w.ciudad, Attr.s w.descripcion_clima,
   Attr.n w.temperatura_celsius,
   Attr.n (pyOrZero w.sensacion_termica_celsius),
   Attr.n (pyOrZero w.humedad_porcentaje),
   Attr.n w.velocidad_viento_kmh, Attr.n w.velocidad_viento_nudos,
   Attr.n w.direccion_viento_grados, Attr.n w.rafaga_viento_kmh,
   Attr.s w.icono_clima]

/-- The attribute row written to the temporary layer by `canvasReleaseEvent`
(lines 736-747), again with `or 0.0` on the two optional fields. -/
def canvas_attributes (w : WeatherData) : List Attr :=
  [Attr.s w.ciudad, Attr.s w.descripcion_clima, Attr.s w.icono_clima,
   Attr.n w.temperatura_celsius,
   Attr.n (pyOrZero w.sensacion_termica_celsius),
   Attr.n (pyOrZero w.humedad_porcentaje),
   Attr.n w.velocidad_viento_kmh, Attr.n w.velocidad_viento_nudos,
   Attr.n w.direccion_viento_grados, Attr.n w.rafaga_viento_kmh]

/-- The `sens_txt` of `canvasReleaseEvent` (lines 758-759): `if sens` is a
truthiness test, so `0.0` suppresses the suffix exactly like `None`. -/
def canvas_sens_txt (s : Option ℚ) (fmt : ℚ → String) : String :=
  match s with
  | none => ""
  | some q => if q = 0 then "" else " (sens. " ++ fmt q ++ "°C)"

/-- `{weather.humedad_porcentaje or '—'}` (line 767): `None` and `0.0` both
render as the absence marker. -/
def canvas_hum_txt (h : Option ℚ) (fmt : ℚ → String) : String :=
  match h with
  | none => "—"
  | some q => if q = 0 then "—" else fmt q

/-- The notification `msg` built by `canvasReleaseEvent` (lines 762-769). -/
def canvas_msg (w : WeatherData) (fmt : ℚ → String) (dirDesc : ℚ → String) : String :=
  "<b>" ++ w.icono_clima ++ " " ++ w.ciudad ++ "</b><br>" ++
  fmt w.temperatura_celsius ++ "°C" ++
  canvas_sens_txt w.sensacion_termica_celsius fmt ++ "<br>" ++
  "Viento: " ++ fmt w.velocidad_viento_nudos ++ " kt / " ++
  fmt w.velocidad_viento_kmh ++ " km/h " ++
  dirDesc w.direccion_viento_grados ++ "<br>" ++
  "Humedad: " ++ canvas_hum_txt w.humedad_porcentaje fmt ++ "%<br>" ++
  pyCapitalize w.descripcion_clima

/-- The click-handling flow of `canvasReleaseEvent` (lines 695-776) after the
coordinate transform: fetch, and on success build the layer attributes, the
legend and the notification message.  An `Except.error` result would be an
exception escaping to QGIS. -/
def canvasReleaseEvent_run (env : FetchEnv) (api_key : String) (lat lon : ℚ)
    (fmt : ℚ → String) : Except PyExn (Option (List Attr × String × String)) :=
  match fetch_weather_guarded env api_key lat lon with
  | Except.error e => Except.error e
  | Except.ok none => Except.ok none
  | Except.ok (some w) =>
    match show_legend_run (some w) fmt with
    | Except.error e => Except.error e
    | Except.ok leg =>
      Except.ok (some (canvas_attributes w, leg.1, canvas_msg w fmt direccion_viento_desc))

/-! ### Concrete payloads, environments and records used by closed theorems -/

/-- A fetch environment whose attempts never reach a server. -/
def envX : FetchEnv := ⟨true, fun _ => AttemptResult.connError⟩

/-- A payload with every optional field absent (`{}`). -/
def payloadEmpty : ApiPayload := ⟨none, none, none, none, none, none, none, none⟩

/-- The record `from_api_response` builds from `payloadEmpty`. -/
def wdEmpty : WeatherData := ⟨"Desconocida", "", "", 0, none, none, 0, 0, 0, 0, 0⟩

/-- A payload whose only present field is `wind.speed = 10.0`. -/
def payload10 : ApiPayload := ⟨none, none, none, none, none, some 10, none, none⟩

/-- The record `from_api_response` builds from `payload10`. -/
def wd10 : WeatherData := ⟨"Desconocida", "", "", 0, none, none, 36, 97 / 5, 0, 0, 0⟩

/-- A payload with `wind.speed = 100000.0` (m/s). -/
def payloadBig : ApiPayload := ⟨none, none, none, none, none, some 100000, none, none⟩

/-- The record `from_api_response` builds from `payloadBig`. -/
def wdBig : WeatherData :=
  ⟨"Desconocida", "", "", 0, none, none, 360000, 194384, 0, 0, 0⟩

/-- A payload whose only present field is `main.humidity = 0.0`. -/
def payloadHum0 : ApiPayload := ⟨none, none, none, none, some 0, none, none, none⟩

/-- The record `from_api_response` builds from `payloadHum0`. -/
def wdHum0 : WeatherData := ⟨"Desconocida", "", "", 0, none, some 0, 0, 0, 0, 0, 0⟩

/-- A payload whose condition entry is the free text `"cielo claro"` with the
unmapped icon code `"999"`. -/
def payloadDesc : ApiPayload :=
  ⟨none, some [⟨some "cielo claro", some "999"⟩], none, none, none, none, none, none⟩

/-- The record `from_api_response` builds from `payloadDesc`. -/
def wdDesc : WeatherData := ⟨"Desconocida", "cielo claro", "", 0, none, none, 0, 0, 0, 0, 0⟩

/-- Attempts: two 503 responses, then a 200 with a parsable body. -/
def env503x2 : FetchEnv :=
  ⟨true, fun k => if k < 2 then AttemptResult.status 503 Body.badJson
                  else AttemptResult.status 200 (Body.json payloadEmpty)⟩

/-- Attempts: three 503 responses, then a 200 with a parsable body. -/
def env503x3 : FetchEnv :=
  ⟨true, fun k => if k < 3 then AttemptResult.status 503 Body.badJson
                  else AttemptResult.status 200 (Body.json payloadEmpty)⟩

/-- Attempts: every request answers 404 with a parsable JSON error body. -/
def env404 : FetchEnv :=
  ⟨true, fun _ => AttemptResult.status 404 (Body.json payloadEmpty)⟩

/-! ### Helper lemmas -/

/-- Characterisation of a successful `from_api_response`: the record is built
field by field from the first entry of the `weather` array and the payload. -/
theorem from_api_response_fields (p : ApiPayload) (w : WeatherData)
    (h : from_api_response p = Except.ok w) :
    ∃ i rest, p.weather.getD [⟨none, none⟩] = i :: rest ∧
      w = ⟨p.name.getD "Desconocida", i.description.getD "", iconFor (i.icon.getD ""),
           p.temp.getD 0, p.feels_like, p.humidity,
           round1 (pyOrZero p.wind_speed * MS_TO_KMH),
           round1 (pyOrZero p.wind_speed * MS_TO_KNOTS),
           p.wind_deg.getD 0,
           round1 (pyOrZero p.wind_gust * MS_TO_KMH),
           round1 (pyOrZero p.wind_gust * MS_TO_KNOTS)⟩ := by
  unfold from_api_response at h
  cases hw : p.weather.getD [⟨none, none⟩] with
  | nil => exact absurd h (by simp [hw])
  | cons i rest =>
    simp only [hw, Except.ok.injEq] at h
    exact ⟨i, rest, rfl, h.symm⟩

/-- `round1` moves a rational by at most `1/20` (half of one decimal step). -/
theorem round1_close (q : ℚ) : |round1 q - q| ≤ 1 / 20 := by
  have h := abs_sub_round (10 * q)
  rw [abs_le] at h ⊢
  unfold round1
  constructor <;> [linarith [h.1, h.2]; linarith [h.1, h.2]]

/-! ### C1 -/

/-- C1: `validate_coordinates` accepts exactly the pairs with
`-90 ≤ lat ≤ 90` and `-180 ≤ lon ≤ 180`, and on any rejected pair
`fetch_weather` fails with the coordinate outcome — before the credential
check (the outcome is `invalidCoords` even for an empty key) and with zero
network requests issued. -/
theorem validate_coordinates_spec (lat lon : ℚ) :
    (validate_coordinates lat lon = true ↔
      (-90 ≤ lat ∧ lat ≤ 90) ∧ (-180 ≤ lon ∧ lon ≤ 180)) ∧
    (validate_coordinates lat lon = false →
      ∀ (env : FetchEnv) (api_key : String),
        fetch_weather env api_key lat lon = (FetchOutcome.invalidCoords, 0)) := by
  constructor
  · unfold validate_coordinates
    by_cases h1 : (-90 ≤ lat ∧ lat ≤ 90) <;> by_cases h2 : (-180 ≤ lon ∧ lon ≤ 180) <;>
      simp [h1, h2]
  · intro h env api_key
    unfold fetch_weather
    simp [h]

/-- Witness for C1 at the out-of-range latitude `100`. -/
theorem validate_coordinates_spec_witness :
    fetch_weather envX "" 100 0 = (FetchOutcome.invalidCoords, 0) :=
  (validate_coordinates_spec 100 0).2 (by decide) envX ""

/-! ### C3 -/

/-- C3: for valid coordinates, an absent (empty) credential makes
`fetch_weather` fail immediately with the missing-credential outcome and zero
network requests. -/
theorem missing_credential_no_network (env : FetchEnv) (lat lon : ℚ)
    (hlat : -90 ≤ lat ∧ lat ≤ 90) (hlon : -180 ≤ lon ∧ lon ≤ 180) :
    fetch_weather env "" lat lon = (FetchOutcome.missingApiKey, 0) := by
  have hv : validate_coordinates lat lon = true := by
    unfold validate_coordinates
    simp [hlat, hlon]
  unfold fetch_weather
  simp [hv]

/-- Witness for C3 at the origin with an empty API key. -/
theorem missing_credential_no_network_witness :
    fetch_weather envX "" 0 0 = (FetchOutcome.missingApiKey, 0) :=
  missing_credential_no_network envX 0 0 (by decide) (by decide)

/-! ### C6 -/

/-- C6: the normalized record carries `round1(ms * 3.6)` km/h and
`round1(ms * 1.94384)` knots for a source wind speed `ms`; at `10.0` m/s this
is exactly `36.0` km/h and `19.4` knots. -/
theorem unit_conversion (p : ApiPayload) (w : WeatherData)
    (h : from_api_response p = Except.ok w) :
    w.velocidad_viento_kmh = round1 (pyOrZero p.wind_speed * MS_TO_KMH) ∧
    w.velocidad_viento_nudos = round1 (pyOrZero p.wind_speed * MS_TO_KNOTS) ∧
    (p.wind_speed = some 10 →
      w.velocidad_viento_kmh = 36 ∧ w.velocidad_viento_nudos = 97 / 5) := by
  obtain ⟨i, rest, -, hwrec⟩ := from_api_response_fields p w h
  subst hwrec
  refine ⟨rfl, rfl, ?_⟩
  intro hs
  rw [hs]
  constructor <;>
    · simp only [pyOrZero, MS_TO_KMH, MS_TO_KNOTS, round1]
      norm_num [round_eq]

/-- Witness for C6: the record built from `payload10` (wind speed `10.0` m/s)
has `36.0` km/h and `19.4` knots. -/
theorem unit_conversion_witness :
    wd10.velocidad_viento_kmh = 36 ∧ wd10.velocidad_viento_nudos = 97 / 5 := by
  have h : from_api_response payload10 = Except.ok wd10 := by
    have hicon : iconFor "" = "" := by decide
    simp only [from_api_response, payload10, wd10, pyOrZero, Option.getD, hicon,
      MS_TO_KMH, MS_TO_KNOTS, round1, Except.ok.injEq, WeatherData.mk.injEq]
    norm_num [round_eq]
  exact (unit_conversion payload10 wd10 h).2.2 rfl

/-! ### C2 -/

/-- The retry loop performs at most one initial attempt plus its retry budget. -/
theorem retryLoop_attempts_le (cfg : RetryConfig) (env : ℕ → AttemptResult) :
    ∀ r k, (retryLoop cfg env r k).1 ≤ k + r + 1 := by
  intro r
  induction r with
  | zero =>
    intro k
    unfold retryLoop
    cases env k with
    | status c b => dsimp only; split <;> simp
    | timeout => simp
    | connError => simp
  | succ r ih =>
    intro k
    unfold retryLoop
    cases env k with
    | status c b =>
      dsimp only
      split
      · exact le_trans (ih (k + 1)) (by omega)
      · dsimp only
        omega
    | timeout => exact le_trans (ih (k + 1)) (by omega)
    | connError => exact le_trans (ih (k + 1)) (by omega)

/-- C2 counterexample: with `Retry(total=3)` a fetch can make a 4th HTTP
attempt — three 503 responses followed by a 200 still succeed, on the 4th
attempt — so "at most 3 attempts" is false of the code. -/
theorem fetch_four_attempts_counterexample :
    (fetch_weather env503x3 "key" 0 0).2 = 4 ∧
    ¬ (fetch_weather env503x3 "key" 0 0).2 ≤ 3 ∧
    (fetch_weather env503x3 "key" 0 0).1 = FetchOutcome.success wdEmpty := by
  refine ⟨by decide, by decide, ?_⟩
  have hicon : iconFor "" = "" := by decide
  have hresp : from_api_response payloadEmpty = Except.ok wdEmpty := by
    simp only [from_api_response, payloadEmpty, wdEmpty, pyOrZero, Option.getD, hicon,
      MS_TO_KMH, MS_TO_KNOTS, round1, Except.ok.injEq, WeatherData.mk.injEq]
    norm_num [round_eq]
  have hval : validate_coordinates 0 0 = true := by decide
  have hkey : ¬ ("key" : String) = "" := by decide
  simp only [fetch_weather, hval, Bool.not_true, Bool.false_eq_true, if_false,
    sessionGet, create_session_retry, retryLoop, env503x3]
  norm_num [hresp, hkey]

/-- C2 (amended): a fetch makes at most 4 HTTP attempts (one initial plus the
3 configured retries, backoff factor 0.3); a first response whose status is not
in the forcelist `[500, 502, 503, 504]` — in particular any 4xx — is returned
after exactly 1 attempt with no retry; two 503 responses followed by a 200
succeed on the 3rd attempt; a 404 fails after exactly 1 attempt. -/
theorem fetch_retry_policy (env : FetchEnv) (c : ℕ) (b : Body)
    (hc : create_session_retry.status_forcelist.contains c = false)
    (h0 : env.attempts 0 = AttemptResult.status c b) :
    (∀ (e : FetchEnv) (key : String) (la lo : ℚ), (fetch_weather e key la lo).2 ≤ 4) ∧
    sessionGet env.attempts = (1, SessionOutcome.ok c b) ∧
    (fetch_weather env503x2 "key" 0 0).2 = 3 ∧
    (fetch_weather env503x2 "key" 0 0).1 = FetchOutcome.success wdEmpty ∧
    fetch_weather env404 "key" 0 0 = (FetchOutcome.httpError 404, 1) := by
  refine ⟨?_, ?_, by decide, ?_, ?_⟩
  · intro e key la lo
    unfold fetch_weather
    have hb := retryLoop_attempts_le create_session_retry e.attempts create_session_retry.total 0
    split
    · simp
    · split
      · simp
      · split
        · simp
        · rcases hs : sessionGet e.attempts with ⟨n, out⟩
          have hn : n ≤ 4 := by
            have := hb
            rw [sessionGet] at hs
            rw [hs] at this
            simpa [create_session_retry] using this
          cases out with
          | ok code body =>
            cases body with
            | badJson => simpa using hn
            | json data =>
              dsimp only
              split
              · simpa using hn
              · cases hfa : from_api_response data <;> simpa using hn
          | exhaustedStatus => simpa using hn
          | exhaustedTimeout => simpa using hn
          | exhaustedConn => simpa using hn
  · have h1 : sessionGet env.attempts = retryLoop create_session_retry env.attempts 3 0 := rfl
    rw [h1]
    simp only [retryLoop, h0, hc, Bool.false_eq_true, if_false]
  · have hicon : iconFor "" = "" := by decide
    have hresp : from_api_response payloadEmpty = Except.ok wdEmpty := by
      simp only [from_api_response, payloadEmpty, wdEmpty, pyOrZero, Option.getD, hicon,
        MS_TO_KMH, MS_TO_KNOTS, round1, Except.ok.injEq, WeatherData.mk.injEq]
      norm_num [round_eq]
    have hval : validate_coordinates 0 0 = true := by decide
    have hkey : ¬ ("key" : String) = "" := by decide
    simp only [fetch_weather, hval, Bool.not_true, Bool.false_eq_true, if_false,
      sessionGet, create_session_retry, retryLoop, env503x2]
    norm_num [hresp, hkey]
  · have hval : validate_coordinates 0 0 = true := by decide
    have hkey : ¬ ("key" : String) = "" := by decide
    simp only [fetch_weather, hval, Bool.not_true, Bool.false_eq_true, if_false,
      sessionGet, create_session_retry, retryLoop, env404]
    norm_num [hkey]

/-- Witness for C2 (amended) at the concrete 404 environment: the non-forcelist
status 404 is handed back after a single attempt. -/
theorem fetch_retry_policy_witness :
    sessionGet env404.attempts = (1, SessionOutcome.ok 404 (Body.json payloadEmpty)) :=
  (fetch_retry_policy env404 404 (Body.json payloadEmpty) (by decide) rfl).2.1

/-! ### C4 -/

/-- The `except Exception` catch-all means the handler chain of `fetch_weather`
handles every exception the `try:` block can raise. -/
theorem fetch_handlers_total (e : PyExn) : fetch_handlers e = some none := by
  cases e <;> rfl

/-- The exception-level model of `fetch_weather` never lets an error escape and
agrees with the outcome-level model. -/
theorem fetch_weather_guarded_eq (env : FetchEnv) (api_key : String) (lat lon : ℚ) :
    fetch_weather_guarded env api_key lat lon =
      Except.ok (outcomeToOption (fetch_weather env api_key lat lon).1) := by
  by_cases hv : validate_coordinates lat lon
  · by_cases hk : api_key = ""
    · simp [fetch_weather_guarded, fetch_weather, hv, hk, outcomeToOption]
    · by_cases hr : env.requestsAvailable
      · rcases hs : sessionGet env.attempts with ⟨n, out⟩
        cases out with
        | ok code body =>
          cases body with
          | badJson =>
            simp [fetch_weather_guarded, fetch_weather, fetch_try, r_json, hv, hk, hr, hs,
              outcomeToOption, fetch_handlers_total]
          | json data =>
            by_cases hcode : code = 200
            · cases hfa : from_api_response data with
              | error e =>
                simp [fetch_weather_guarded, fetch_weather, fetch_try, r_json, hv, hk, hr,
                  hs, hcode, hfa, outcomeToOption, fetch_handlers_total]
              | ok w =>
                simp [fetch_weather_guarded, fetch_weather, fetch_try, r_json, hv, hk, hr,
                  hs, hcode, hfa, outcomeToOption]
            · simp [fetch_weather_guarded, fetch_weather, fetch_try, r_json, hv, hk, hr,
                hs, hcode, outcomeToOption]
        | exhaustedStatus =>
          simp [fetch_weather_guarded, fetch_weather, fetch_try, hv, hk, hr, hs,
            outcomeToOption, fetch_handlers_total]
        | exhaustedTimeout =>
          simp [fetch_weather_guarded, fetch_weather, fetch_try, hv, hk, hr, hs,
            outcomeToOption, fetch_handlers_total]
        | exhaustedConn =>
          simp [fetch_weather_guarded, fetch_weather, fetch_try, hv, hk, hr, hs,
            outcomeToOption, fetch_handlers_total]
      · simp [fetch_weather_guarded, fetch_weather, hv, hk, hr, outcomeToOption]
  · simp [fetch_weather_guarded, fetch_weather, hv, outcomeToOption]

/-- C4: no error escapes as an uncaught exception — `fetch_weather` returns a
value (`None` on every error path, matching the outcome-level model), and the
click-handling flow (`show_legend`, `canvasReleaseEvent`) completes without
raising for every fetch result.  `direccion_viento_desc` / `color_for_temp`
are modelled from the spec (their definitions are not among the sources). -/
theorem no_uncaught_exception (env : FetchEnv) (api_key : String) (lat lon : ℚ)
    (fmt : ℚ → String) (weather : Option WeatherData) :
    fetch_weather_guarded env api_key lat lon =
      Except.ok (outcomeToOption (fetch_weather env api_key lat lon).1) ∧
    (show_legend_run weather fmt).isOk = true ∧
    (canvasReleaseEvent_run env api_key lat lon fmt).isOk = true := by
  refine ⟨fetch_weather_guarded_eq env api_key lat lon, ?_, ?_⟩
  · cases weather <;> rfl
  · unfold canvasReleaseEvent_run
    rw [fetch_weather_guarded_eq env api_key lat lon]
    cases ho : outcomeToOption (fetch_weather env api_key lat lon).1 with
    | none => rfl
    | some w => simp [show_legend_run, Except.isOk, Except.toBool]

/-! ### C5 -/

/-- C5 counterexample: the claim's tolerance fails for an extreme source wind
speed.  At `wind.speed = 100000` m/s the record has `194384.0` knots and
`360000.0` km/h, and both `|knots - kmh / 1.852|` and
`|knots - kmh * 0.539957|` exceed `0.1` (the constants disagree:
`3.6 / 1.852 ≠ 1.94384`). -/
theorem wind_consistency_counterexample :
    from_api_response payloadBig = Except.ok wdBig ∧
    ¬ (|wdBig.velocidad_viento_nudos - wdBig.velocidad_viento_kmh / (1852 / 1000)| ≤ 1 / 10) ∧
    ¬ (|wdBig.velocidad_viento_nudos - wdBig.velocidad_viento_kmh * (539957 / 1000000)| ≤ 1 / 10) := by
  refine ⟨?_, ?_, ?_⟩
  · have hicon : iconFor "" = "" := by decide
    simp only [from_api_response, payloadBig, wdBig, pyOrZero, Option.getD, hicon,
      MS_TO_KMH, MS_TO_KNOTS, round1, Except.ok.injEq, WeatherData.mk.injEq]
    norm_num [round_eq]
  · show ¬ (|(194384 : ℚ) - 360000 / (1852 / 1000)| ≤ 1 / 10)
    rw [abs_sub_comm, abs_of_pos (by norm_num)]
    norm_num
  · show ¬ (|(194384 : ℚ) - 360000 * (539957 / 1000000)| ≤ 1 / 10)
    rw [abs_sub_comm, abs_of_pos (by norm_num)]
    norm_num

/-- C5 (amended): for every physical source wind speed (`0 ≤ ms ≤ 1000` m/s —
the claim's unbounded form fails only beyond that, see the counterexample),
the independently derived record fields agree up to the `0.1` rounding of each
field: `|knots − kmh / 1.852| ≤ 0.1` and `|knots − kmh × 0.539957| ≤ 0.1`. -/
theorem wind_knots_kmh_consistency (p : ApiPayload) (w : WeatherData)
    (h : from_api_response p = Except.ok w)
    (h0 : 0 ≤ pyOrZero p.wind_speed) (h1 : pyOrZero p.wind_speed ≤ 1000) :
    |w.velocidad_viento_nudos - w.velocidad_viento_kmh / (1852 / 1000)| ≤ 1 / 10 ∧
    |w.velocidad_viento_nudos - w.velocidad_viento_kmh * (539957 / 1000000)| ≤ 1 / 10 := by
  obtain ⟨i, rest, -, hwrec⟩ := from_api_response_fields p w h
  subst hwrec
  dsimp only
  have hkt := round1_close (pyOrZero p.wind_speed * MS_TO_KNOTS)
  have hkmh := round1_close (pyOrZero p.wind_speed * MS_TO_KMH)
  rw [abs_le] at hkt hkmh
  rw [MS_TO_KNOTS, MS_TO_KMH] at *
  constructor
  · rw [abs_le]
    constructor <;> nlinarith [hkt.1, hkt.2, hkmh.1, hkmh.2]
  · rw [abs_le]
    constructor <;> nlinarith [hkt.1, hkt.2, hkmh.1, hkmh.2]

/-- Witness for C5 (amended) at the record built from a `10.0` m/s wind. -/
theorem wind_knots_kmh_consistency_witness :
    |wd10.velocidad_viento_nudos - wd10.velocidad_viento_kmh / (1852 / 1000)| ≤ 1 / 10 ∧
    |wd10.velocidad_viento_nudos - wd10.velocidad_viento_kmh * (539957 / 1000000)| ≤ 1 / 10 := by
  have h : from_api_response payload10 = Except.ok wd10 := by
    have hicon : iconFor "" = "" := by decide
    simp only [from_api_response, payload10, wd10, pyOrZero, Option.getD, hicon,
      MS_TO_KMH, MS_TO_KNOTS, round1, Except.ok.injEq, WeatherData.mk.injEq]
    norm_num [round_eq]
  exact wind_knots_kmh_consistency payload10 wd10 h (by norm_num [pyOrZero, payload10])
    (by norm_num [pyOrZero, payload10])

/-! ### C7 -/

/-- C7 counterexample: an absent humidity is NOT rendered distinctly from the
value `0` — the click-message renders both as the marker `—` (line 767 uses
`humedad_porcentaje or '—'`, and `0.0` is falsy), so two payloads differing
only in absent-vs-zero humidity produce the same displayed message. -/
theorem humidity_rendering_counterexample :
    from_api_response payloadHum0 = Except.ok wdHum0 ∧
    from_api_response payloadEmpty = Except.ok wdEmpty ∧
    wdHum0.humedad_porcentaje = some 0 ∧
    wdEmpty.humedad_porcentaje = none ∧
    canvas_msg wdHum0 pyFloatStr direccion_viento_desc =
      canvas_msg wdEmpty pyFloatStr direccion_viento_desc := by
  have hicon : iconFor "" = "" := by decide
  refine ⟨?_, ?_, rfl, rfl, rfl⟩
  · simp only [from_api_response, payloadHum0, wdHum0, pyOrZero, Option.getD, hicon,
      MS_TO_KMH, MS_TO_KNOTS, round1, Except.ok.injEq, WeatherData.mk.injEq]
    norm_num [round_eq]
  · simp only [from_api_response, payloadEmpty, wdEmpty, pyOrZero, Option.getD, hicon,
      MS_TO_KMH, MS_TO_KNOTS, round1, Except.ok.injEq, WeatherData.mk.injEq]
    norm_num [round_eq]

/-- In the legend a feels-like of `0` and an absent feels-like render
differently: the suffix `" (sens. …°C)"` is present exactly when the field is
not `None`. -/
theorem legend_sens_distinct (w : WeatherData) (fmt d : ℚ → String) :
    legend_texto { w with sensacion_termica_celsius := some 0 } fmt d ≠
    legend_texto { w with sensacion_termica_celsius := none } fmt d := by
  intro hEq
  have hlen := congrArg String.length hEq
  have hraf : ∀ s : Option ℚ,
      legend_rafaga_txt { w with sensacion_termica_celsius := s } fmt =
      legend_rafaga_txt w fmt := fun _ => rfl
  simp only [legend_texto, legend_sens_txt, hraf, String.length_append] at hlen
  have h1 : (" (sens. ").length = 8 := rfl
  have h2 : ("°C)").length = 3 := rfl
  have h3 : ("" : String).length = 0 := rfl
  omega

/-- C7 (amended): every numeric field of the record defaults to `0` when the
provider omits it, while humidity and feels-like remain absent (`None`);
feels-like is rendered distinctly from `0` in the legend (`is not None`), but
the click-message humidity conflates absent with `0` (both show `—`). -/
theorem numeric_defaults_and_rendering (p : ApiPayload) (w : WeatherData)
    (h : from_api_response p = Except.ok w) :
    (p.wind_deg = none → w.direccion_viento_grados = 0) ∧
    (p.wind_gust = none → w.rafaga_viento_kmh = 0 ∧ w.rafaga_viento_nudos = 0) ∧
    (p.wind_speed = none → w.velocidad_viento_kmh = 0 ∧ w.velocidad_viento_nudos = 0) ∧
    (p.temp = none → w.temperatura_celsius = 0) ∧
    (p.humidity = none → w.humedad_porcentaje = none) ∧
    (p.feels_like = none → w.sensacion_termica_celsius = none) ∧
    (∀ (fmt d : ℚ → String),
      legend_texto { w with sensacion_termica_celsius := some 0 } fmt d ≠
      legend_texto { w with sensacion_termica_celsius := none } fmt d) ∧
    (∀ (fmt d : ℚ → String),
      canvas_msg { w with humedad_porcentaje := some 0 } fmt d =
      canvas_msg { w with humedad_porcentaje := none } fmt d) := by
  obtain ⟨i, rest, -, hwrec⟩ := from_api_response_fields p w h
  subst hwrec
  refine ⟨?_, ?_, ?_, ?_, ?_, ?_, ?_, ?_⟩
  · intro hd; simp [hd]
  · intro hg; simp [hg, pyOrZero, round1, MS_TO_KMH, MS_TO_KNOTS]
  · intro hsp; simp [hsp, pyOrZero, round1, MS_TO_KMH, MS_TO_KNOTS]
  · intro ht; simp [ht]
  · intro hh; simp [hh]
  · intro hf; simp [hf]
  · intro fmt d
    exact legend_sens_distinct _ fmt d
  · intro fmt d
    simp [canvas_msg, canvas_hum_txt, canvas_sens_txt, legend_rafaga_txt]

/-- Witness for C7 (amended) at the record built from the all-absent payload. -/
theorem numeric_defaults_and_rendering_witness :
    wdEmpty.direccion_viento_grados = 0 ∧ wdEmpty.rafaga_viento_kmh = 0 ∧
    wdEmpty.humedad_porcentaje = none ∧ wdEmpty.sensacion_termica_celsius = none := by
  have hicon : iconFor "" = "" := by decide
  have h : from_api_response payloadEmpty = Except.ok wdEmpty := by
    simp only [from_api_response, payloadEmpty, wdEmpty, pyOrZero, Option.getD, hicon,
      MS_TO_KMH, MS_TO_KNOTS, round1, Except.ok.injEq, WeatherData.mk.injEq]
    norm_num [round_eq]
  have hall := numeric_defaults_and_rendering payloadEmpty wdEmpty h
  exact ⟨hall.1 rfl, (hall.2.1 rfl).1, hall.2.2.2.2.1 rfl, hall.2.2.2.2.2.1 rfl⟩

/-! ### C8 -/

/-- C8 counterexample: the lookup default for an unmapped icon code is the
empty string `""` (line 116: `ICON_EMOJI.get(…, "")`), not the sentinel
`("Unknown", "❓")` — the record built from a payload with unmapped icon code
`"999"` carries `icono_clima = ""` and its description comes from the
payload's free text, not an `"Unknown"` sentinel. -/
theorem icon_sentinel_counterexample :
    iconFor "999" = "" ∧
    ¬ iconFor "999" = "❓" ∧
    from_api_response payloadDesc = Except.ok wdDesc ∧
    wdDesc.icono_clima = "" ∧
    ¬ (wdDesc.icono_clima = "❓" ∧ wdDesc.descripcion_clima = "Unknown") := by
  refine ⟨by decide, by decide, ?_, rfl, by decide⟩
  have hicon : iconFor "999" = "" := by decide
  simp only [from_api_response, payloadDesc, wdDesc, pyOrZero, Option.getD, hicon,
    MS_TO_KMH, MS_TO_KNOTS, round1, Except.ok.injEq, WeatherData.mk.injEq]
  norm_num [round_eq]

/-- C8 (amended): the icon lookup is total and never raises — every mapped
code returns its emoji and every unmapped code returns the empty-string
sentinel `""` — and the record's icon field is exactly this lookup applied to
the payload's icon code. -/
theorem icon_lookup_total (p : ApiPayload) (i : WeatherItem) (rest : List WeatherItem)
    (hp : p.weather = some (i :: rest)) (w : WeatherData)
    (h : from_api_response p = Except.ok w) (c e : String) :
    (ICON_EMOJI.lookup c = some e → iconFor c = e) ∧
    (ICON_EMOJI.lookup c = none → iconFor c = "") ∧
    w.icono_clima = iconFor (i.icon.getD "") := by
  obtain ⟨i', rest', hlist, hwrec⟩ := from_api_response_fields p w h
  rw [hp] at hlist
  simp only [Option.getD, List.cons.injEq] at hlist
  obtain ⟨rfl, rfl⟩ := hlist
  subst hwrec
  exact ⟨fun hl => by simp [iconFor, hl], fun hl => by simp [iconFor, hl], rfl⟩

/-- Witness for C8 (amended): the mapped code `"01d"` yields its emoji, and
the record built from `payloadDesc` carries the lookup of its icon code. -/
theorem icon_lookup_total_witness :
    iconFor "01d" = "☀️" ∧ wdDesc.icono_clima = iconFor "999" := by
  have hresp : from_api_response payloadDesc = Except.ok wdDesc := by
    have hicon : iconFor "999" = "" := by decide
    simp only [from_api_response, payloadDesc, wdDesc, pyOrZero, Option.getD, hicon,
      MS_TO_KMH, MS_TO_KNOTS, round1, Except.ok.injEq, WeatherData.mk.injEq]
    norm_num [round_eq]
  have hall := icon_lookup_total payloadDesc ⟨some "cielo claro", some "999"⟩ [] rfl
    wdDesc hresp "01d" "☀️"
  exact ⟨hall.1 (by decide), hall.2.2⟩

/-! ### C9 -/

/-- C9 counterexample: the normalized record's description field is NOT
capitalized — `from_api_response` stores the provider text unchanged
(line 115), so `"cielo claro"` stays lower-case in the record. -/
theorem description_not_capitalized_counterexample :
    from_api_response payloadDesc = Except.ok wdDesc ∧
    wdDesc.descripcion_clima = "cielo claro" ∧
    pyCapitalize wdDesc.descripcion_clima = "Cielo claro" ∧
    ¬ wdDesc.descripcion_clima = pyCapitalize wdDesc.descripcion_clima := by
  refine ⟨?_, rfl, by decide, by decide⟩
  have hicon : iconFor "999" = "" := by decide
  simp only [from_api_response, payloadDesc, wdDesc, pyOrZero, Option.getD, hicon,
    MS_TO_KMH, MS_TO_KNOTS, round1, Except.ok.injEq, WeatherData.mk.injEq]
  norm_num [round_eq]

/-- C9 (amended): the record stores the provider's free-text description
unchanged; capitalization happens at rendering — the legend text and the
click-message contain `descripcion_clima.capitalize()` verbatim. -/
theorem description_capitalized_in_rendering (p : ApiPayload) (i : WeatherItem)
    (rest : List WeatherItem) (hp : p.weather = some (i :: rest)) (w : WeatherData)
    (h : from_api_response p = Except.ok w) :
    w.descripcion_clima = i.description.getD "" ∧
    (∀ (fmt d : ℚ → String),
      legend_texto w fmt d =
        legend_before_desc w fmt ++ pyCapitalize w.descripcion_clima ++
          legend_after_desc w fmt d) ∧
    (∀ (fmt d : ℚ → String), ∃ pre,
      canvas_msg w fmt d = pre ++ pyCapitalize w.descripcion_clima) := by
  obtain ⟨i', rest', hlist, hwrec⟩ := from_api_response_fields p w h
  rw [hp] at hlist
  simp only [Option.getD, List.cons.injEq] at hlist
  obtain ⟨rfl, rfl⟩ := hlist
  subst hwrec
  refine ⟨rfl, fun fmt d => ?_, fun fmt d => ⟨_, rfl⟩⟩
  simp only [legend_texto, legend_before_desc, legend_after_desc, String.append_assoc]

/-- Witness for C9 (amended): on the record built from `payloadDesc`, whose
description is `"cielo claro"`, the legend factorizes around the capitalized
description. -/
theorem description_capitalized_in_rendering_witness :
    wdDesc.descripcion_clima = "cielo claro" ∧
    legend_texto wdDesc pyFloatStr direccion_viento_desc =
      legend_before_desc wdDesc pyFloatStr ++ pyCapitalize wdDesc.descripcion_clima ++
        legend_after_desc wdDesc pyFloatStr direccion_viento_desc := by
  have hresp : from_api_response payloadDesc = Except.ok wdDesc := by
    have hicon : iconFor "999" = "" := by decide
    simp only [from_api_response, payloadDesc, wdDesc, pyOrZero, Option.getD, hicon,
      MS_TO_KMH, MS_TO_KNOTS, round1, Except.ok.injEq, WeatherData.mk.injEq]
    norm_num [round_eq]
  have hall := description_capitalized_in_rendering payloadDesc
    ⟨some "cielo claro", some "999"⟩ [] rfl wdDesc hresp
  exact ⟨hall.1, hall.2.1 pyFloatStr direccion_viento_desc⟩

/-! ### C10 -/

/-- C10: persistence and the click-message cannot distinguish an absent
humidity or feels-like from the value `0`: `save_weather` and
`canvasReleaseEvent` write `0.0` for both (via `or 0.0`), the message shows
the `—` marker for both humidity cases and suppresses the feels-like suffix
for both, so two records differing only in absent-vs-zero produce identical
persisted attributes and identical messages. -/
theorem absent_vs_zero_indistinguishable (w : WeatherData) (ts : String) (lat lon : ℚ)
    (s1 s2 h1 h2 : Option ℚ)
    (hs1 : s1 = none ∨ s1 = some 0) (hs2 : s2 = none ∨ s2 = some 0)
    (hh1 : h1 = none ∨ h1 = some 0) (hh2 : h2 = none ∨ h2 = some 0) :
    save_attributes ts lat lon
        { w with sensacion_termica_celsius := s1, humedad_porcentaje := h1 } =
      save_attributes ts lat lon
        { w with sensacion_termica_celsius := s2, humedad_porcentaje := h2 } ∧
    canvas_attributes { w with sensacion_termica_celsius := s1, humedad_porcentaje := h1 } =
      canvas_attributes { w with sensacion_termica_celsius := s2, humedad_porcentaje := h2 } ∧
    (∀ (fmt d : ℚ → String),
      canvas_msg { w with sensacion_termica_celsius := s1, humedad_porcentaje := h1 } fmt d =
      canvas_msg { w with sensacion_termica_celsius := s2, humedad_porcentaje := h2 } fmt d) ∧
    (∀ fmt : ℚ → String, canvas_hum_txt (some 0) fmt = "—" ∧ canvas_hum_txt none fmt = "—") := by
  rcases hs1 with rfl | rfl <;> rcases hs2 with rfl | rfl <;>
    rcases hh1 with rfl | rfl <;> rcases hh2 with rfl | rfl <;>
    refine ⟨?_, ?_, fun fmt d => ?_, fun fmt => ⟨by simp [canvas_hum_txt], rfl⟩⟩ <;>
    simp [save_attributes, canvas_attributes, canvas_msg, canvas_sens_txt, canvas_hum_txt,
      pyOrZero]

/-- Witness for C10: a concrete record pair (absent vs zero on both optional
fields) yields identical persisted attribute rows. -/
theorem absent_vs_zero_indistinguishable_witness :
    save_attributes "t" 0 0
        { wdEmpty with sensacion_termica_celsius := none, humedad_porcentaje := none } =
      save_attributes "t" 0 0
        { wdEmpty with sensacion_termica_celsius := some 0, humedad_porcentaje := some 0 } :=
  (absent_vs_zero_indistinguishable wdEmpty "t" 0 0 none (some 0) none (some 0)
    (Or.inl rfl) (Or.inr rfl) (Or.inl rfl) (Or.inr rfl)).1

end ClimaPorClick
